import Mathlib

/-
A shallow embedding of the core of the `uml_state_machine` crate:
the state-machine data model and validator (src/definition/mod.rs) and the
execution engine (src/execution/mod.rs), together with theorems checking the
crate's specification against this embedding.

Modelling conventions:
* `StateID` (an opaque string token in the crate) is modelled as `Nat`;
  `StateID.invalid` stands for the crate's distinguished `ID::invalid()`
  value, which can never collide with a user-supplied id.
* `HashMap<StateID, Rc<State>>` is modelled as an association list
  `List (StateID × State E D)`; `HashSet<StateID>` as a `List StateID`
  deduplicated with `eraseDups` wherever the crate rebuilds the set.
  Iteration order of a `HashMap`/`HashSet` is unspecified in Rust; the list
  order stands in for one such order, and no theorem below depends on it.
* Guard callbacks (`ConditionFn`) are boolean functions of the state id, the
  optional event and the context; action callbacks (`ActionFn`) are context
  transformers, exactly the information flow of the crate's callback types
  (`&mut D` becomes `D → D`).  Callbacks are modelled as total functions,
  i.e. the regime in which no callback aborts.
* `RefCell` interior mutation is modelled by explicit threading of the
  context value.  `post_internal_event` saves the lifecycle value, sets
  `InAction` for the duration of the callback batch and restores the saved
  value, so its net effect on the lifecycle is the identity; it is therefore
  modelled as a pure context transformer.
* A Rust `unwrap()` on a state lookup is modelled with a default value
  (`getD`); every theorem below exercises those lookups only where the
  crate's `unwrap` succeeds.
-/

namespace USM

abbrev StateID := Nat

def StateID.invalid : StateID := 0

/-- The error kinds of src/error.rs (the `error_chain!` enumeration). -/
inductive ErrorKind where
  | ChartStatesEmpty
  | ChartInvalidInitialStateKind
  | ChartInvalidInitialStateName
  | ChartNoFinalState
  | StateChildStatesEmpty
  | StateInitialState
  | InitialStateTransitions
  | FinalStateTransitions
  | TransitionTrigger
  | TransitionTargetState
  | StateMultipleOutbound
  | InstanceIsDone
  | InstanceIsActive
  | InstanceIsNotActive
  | MoreThanOneTransition
  | ActionPanicked
  | EventDuringAction
deriving DecidableEq, Repr

/-- The phase tags passed to every action callback (src/definition/mod.rs `InternalEvent`). -/
inductive InternalEvent where
  | Init
  | Done
  | Entry
  | Run
  | Exit
  | Transition
deriving DecidableEq, Repr

/-- `StateKind` of src/definition/mod.rs. -/
inductive StateKind where
  | Atomic
  | Composite (child_states : List StateID) (initial : StateID)
  | Orthogonal (child_states : List StateID)
  | History (deep : Bool) (state : List StateID)
  | Initial
  | Final
deriving DecidableEq, Repr

/-- `ActionFn<D> = Rc<dyn Fn(&StateID, &InternalEvent, &mut D)>`. -/
def ActionFn (D : Type) := StateID → InternalEvent → D → D

/-- `ConditionFn<E, D> = Rc<dyn Fn(&StateID, &Option<&E>, &D) -> bool>`. -/
def ConditionFn (E D : Type) := StateID → Option E → D → Bool

/-- `Transition` of src/definition/mod.rs. -/
structure Transition (E D : Type) where
  label : Option String := none
  event : Option E := none
  target : Option StateID := none
  internal : Bool := false
  conditions : List (ConditionFn E D) := []
  actions : List (ActionFn D) := []

/-- `State` of src/definition/mod.rs. -/
structure State (E D : Type) where
  id : StateID
  label : Option String := none
  kind : StateKind := .Atomic
  transitions : List (Transition E D) := []
  parent : Option StateID := none
  on_entry : List (ActionFn D) := []
  on_run : List (ActionFn D) := []
  on_exit : List (ActionFn D) := []

/-- `StateMachine` of src/definition/mod.rs; `states` is the id-keyed map. -/
structure StateMachine (E D : Type) where
  label : Option String := none
  states : List (StateID × State E D) := []
  initial : StateID := StateID.invalid
  on_init : List (ActionFn D) := []
  on_done : List (ActionFn D) := []

/-- `StateMachine::get_state`: lookup in the id-keyed map. -/
def StateMachine.get_state {E D : Type} (m : StateMachine E D) (id : StateID) :
    Option (State E D) :=
  (m.states.find? (fun p => p.1 == id)).map Prod.snd

/-- `StateMachine::has_state`. -/
def StateMachine.has_state {E D : Type} (m : StateMachine E D) (id : StateID) : Bool :=
  (m.get_state id).isSome

/-- `Transition::validate` (src/definition/mod.rs lines 487-497): an empty
transition (no event, no target, no guard) is rejected, then a present target
must name an existing state. -/
def Transition.validate {E D : Type} (t : Transition E D) (chart : StateMachine E D) :
    Except ErrorKind Unit :=
  if t.event.isNone && t.target.isNone && t.conditions.isEmpty then
    .error .TransitionTrigger
  else
    match t.target with
    | some target => if chart.has_state target then .ok () else .error .TransitionTargetState
    | none => .ok ()

/-- The `collect::<Result<Vec<()>, Error>>` idiom: validate each element in
order, short-circuiting on the first error. -/
def validateList {α : Type} (f : α → Except ErrorKind Unit) : List α → Except ErrorKind Unit
  | [] => .ok ()
  | x :: xs =>
    match f x with
    | .ok () => validateList f xs
    | .error e => .error e

/-- `State::validate` (src/definition/mod.rs lines 378-421): per-kind checks,
then every transition of the state is validated. -/
def State.validate {E D : Type} (s : State E D) (chart : StateMachine E D) :
    Except ErrorKind Unit :=
  match
    ((match s.kind with
      | .Atomic => Except.ok ()
      | .Composite child_states initial =>
        if child_states.isEmpty then .error .StateChildStatesEmpty
        else
          match chart.get_state initial with
          | none => .error .StateInitialState
          | some st => if st.kind ≠ .Initial then .error .StateInitialState else .ok ()
      | .Orthogonal child_states =>
        if child_states.isEmpty then .error .StateChildStatesEmpty else .ok ()
      | .History _ _ => Except.ok ()
      | .Initial => Except.ok ()
      | .Final =>
        if !s.transitions.isEmpty then .error .FinalStateTransitions
        else .ok ()) : Except ErrorKind Unit) with
  | .error e => .error e
  | .ok () => validateList (fun t => t.validate chart) s.transitions

/-- `StateMachine::validate` (src/definition/mod.rs lines 200-233): non-empty
state set, resolvable initial pointer of kind `Initial`, at least one `Final`
state (counted by `final_count`, an `i32` accumulator modelled as `Nat` since
it is only ever incremented), then every state validates. -/
def StateMachine.validate {E D : Type} (m : StateMachine E D) : Except ErrorKind Unit :=
  if m.states.isEmpty then .error .ChartStatesEmpty
  else
    match m.get_state m.initial with
    | none => .error .ChartInvalidInitialStateName
    | some st =>
      if st.kind ≠ .Initial then .error .ChartInvalidInitialStateKind
      else if m.states.foldl (fun count p => if p.2.kind = .Final then count + 1 else count)
          (0 : Nat) = 0 then
        .error .ChartNoFinalState
      else validateList (fun p => p.2.validate m) m.states

/-- The instance lifecycle values (src/execution/mod.rs `ExecutionState`);
the Rust source marks `Error` `#[allow(dead_code)]`. -/
inductive ExecutionState where
  | New
  | Active
  | InAction
  | Done
  | Error
deriving DecidableEq, Repr

/-- `ExecutionState::is_new`. -/
def ExecutionState.is_new : ExecutionState → Bool
  | .New => true
  | _ => false

/-- `ExecutionState::is_active`. -/
def ExecutionState.is_active : ExecutionState → Bool
  | .Active => true
  | _ => false

/-- `ExecutionState::is_in_action`. -/
def ExecutionState.is_in_action : ExecutionState → Bool
  | .InAction => true
  | _ => false

/-- `ExecutionState::is_in_error`. -/
def ExecutionState.is_in_error : ExecutionState → Bool
  | .Error => true
  | _ => false

/-- `ExecutionState::is_done`. -/
def ExecutionState.is_done : ExecutionState → Bool
  | .Done => true
  | _ => false

/-- `StateMachineInstance` (src/execution/mod.rs): one shared chart, the
active configuration, the context payload and the lifecycle value.  The
random instance `id` carries no semantics and is omitted. -/
structure StateMachineInstance (E D : Type) where
  chart : StateMachine E D
  active : List StateID := []
  context : D
  state : ExecutionState := .New

/-- `StateMachineInstance::new`: fresh instance over a chart (the Rust
constructor also asserts `chart.validate().is_ok()`). -/
def StateMachineInstance.new {E D : Type} (chart : StateMachine E D) (context : D) :
    StateMachineInstance E D :=
  { chart := chart, active := [], context := context, state := .New }

/-- The entry-action list of the state `id` resolves to (`get_state(..).unwrap().entry_actions()`). -/
def StateMachine.state_entry_actions {E D : Type} (m : StateMachine E D) (id : StateID) :
    List (ActionFn D) :=
  ((m.get_state id).map State.on_entry).getD []

/-- The body-action list of the state `id` resolves to (`get_state(..).unwrap().body_actions()`). -/
def StateMachine.state_body_actions {E D : Type} (m : StateMachine E D) (id : StateID) :
    List (ActionFn D) :=
  ((m.get_state id).map State.on_run).getD []

/-- The exit-action list of the state `id` resolves to (`get_state(..).unwrap().exit_actions()`). -/
def StateMachine.state_exit_actions {E D : Type} (m : StateMachine E D) (id : StateID) :
    List (ActionFn D) :=
  ((m.get_state id).map State.on_exit).getD []

/-- `StateMachineInstance::run_actions` (src/execution/mod.rs lines 223-232):
invoke each action of the list in order on the context.  Nothing here guards
against an aborting callback: each action is called directly. -/
def run_actions {D : Type} (in_state_id : StateID) (on_event : InternalEvent)
    (actions : List (ActionFn D)) (ctx : D) : D :=
  actions.foldl (fun d a => a in_state_id on_event d) ctx

/-- `StateMachineInstance::post_internal_event` (src/execution/mod.rs lines
177-221): select the action list for the phase tag and run it.  The Rust
method saves the lifecycle value, holds `InAction` while the actions run and
restores the saved value, so its net effect is a pure context update; only
the chart and the context of `self` are read, so the method is modelled as a
function of those two. -/
def post_internal_event {E D : Type} (chart : StateMachine E D) (in_state_id : StateID)
    (transition : Option (Transition E D)) (on_event : InternalEvent) (ctx : D) : D :=
  match on_event with
  | .Init => run_actions in_state_id on_event chart.on_init ctx
  | .Done => run_actions in_state_id on_event chart.on_done ctx
  | .Entry => run_actions in_state_id on_event (chart.state_entry_actions in_state_id) ctx
  | .Run => run_actions in_state_id on_event (chart.state_body_actions in_state_id) ctx
  | .Exit => run_actions in_state_id on_event (chart.state_exit_actions in_state_id) ctx
  | .Transition =>
    run_actions in_state_id on_event ((transition.map Transition.actions).getD []) ctx

/-- `StateMachineInstance::fire_state_transitions` (src/execution/mod.rs lines
266-293): if the event matches and every guard holds on the current context,
run the transition's own action list (tag `Transition`) and yield its target
state id (which is `none` for a target-less transition). -/
def fire_state_transitions {E D : Type} [DecidableEq E] (chart : StateMachine E D)
    (from_state : State E D) (transition : Transition E D) (on_event : Option E) (ctx : D) :
    Option StateID × D :=
  if on_event = transition.event then
    if transition.conditions.all (fun c => c from_state.id on_event ctx) then
      (transition.target,
       post_internal_event chart from_state.id (some transition) .Transition ctx)
    else (none, ctx)
  else (none, ctx)

/-- `StateMachineInstance::handle_transition` (src/execution/mod.rs lines
234-264): collect the transitions of `from_state` whose event equals the
posted one; if any is non-internal run the source's exit actions; then fire
each collected transition in declaration order, keeping the target ids the
firings yield (`filter_map`). -/
def handle_transition {E D : Type} [DecidableEq E] (chart : StateMachine E D)
    (from_state : State E D) (on_event : Option E) (ctx : D) : List StateID × D :=
  let transitions := from_state.transitions.filter (fun t => t.event == on_event)
  if !transitions.isEmpty then
    let ctx1 :=
      if transitions.any (fun t => !t.internal) then
        post_internal_event chart from_state.id none .Exit ctx
      else ctx
    transitions.foldl
      (fun acc t =>
        match fire_state_transitions chart from_state t on_event acc.2 with
        | (some target, c) => (acc.1 ++ [target], c)
        | (none, c) => (acc.1, c))
      ([], ctx1)
  else ([], ctx)

/-- `StateMachineInstance::enter_state` (src/execution/mod.rs lines 150-159):
for a non-internal entry run the state's entry actions (tag `Entry`) and then
its body actions (tag `Run`); in all cases resolve the state's no-event
(completion) transitions via `handle_transition` with `none`. -/
def enter_state {E D : Type} [DecidableEq E] (chart : StateMachine E D)
    (state : State E D) (internal : Bool) (ctx : D) : List StateID × D :=
  let ctx1 :=
    if !internal then
      post_internal_event chart state.id none .Run
        (post_internal_event chart state.id none .Entry ctx)
    else ctx
  handle_transition chart state none ctx1

/-- The kind of the state `id` resolves to (`get_state(id).unwrap().kind()` in
`check_done`); `.Atomic` is the never-exercised default for a missing id. -/
def StateMachine.state_kind {E D : Type} (m : StateMachine E D) (id : StateID) : StateKind :=
  ((m.get_state id).map State.kind).getD .Atomic

/-- `StateMachineInstance::check_done` (src/execution/mod.rs lines 161-175):
when the active configuration is non-empty and every member's kind is
`Final`, run the machine's done-action list (tag `Done`, with the invalid id)
and set the lifecycle to `Done`; otherwise set it to `Active`. -/
def StateMachineInstance.check_done {E D : Type} (i : StateMachineInstance E D) :
    StateMachineInstance E D :=
  if !i.active.isEmpty && i.active.all (fun id => i.chart.state_kind id == .Final) then
    { i with
      context := post_internal_event i.chart StateID.invalid none .Done i.context
      state := .Done }
  else { i with state := .Active }

/-- `StateMachineInstance::is_active`. -/
def StateMachineInstance.is_active {E D : Type} (i : StateMachineInstance E D) : Bool :=
  i.state.is_active

/-- `StateMachineInstance::is_in_error`. -/
def StateMachineInstance.is_in_error {E D : Type} (i : StateMachineInstance E D) : Bool :=
  i.state.is_in_error

/-- `StateMachineInstance::is_done`. -/
def StateMachineInstance.is_done {E D : Type} (i : StateMachineInstance E D) : Bool :=
  i.state.is_done

/-- The initial-entry block of `StateMachineInstance::execute` (src/execution/
mod.rs lines 94-97): run the machine init actions (tag `Init`, in the initial
state id), enter the initial state, and replace the active configuration with
the resulting id set (`HashSet::from_iter`, modelled by `eraseDups`). -/
def StateMachineInstance.initial_entry {E D : Type} [DecidableEq E]
    (i : StateMachineInstance E D) (initial_state : State E D) : StateMachineInstance E D :=
  let ctx0 := post_internal_event i.chart i.chart.initial none .Init i.context
  let r := enter_state i.chart initial_state false ctx0
  { i with active := r.1.eraseDups, context := r.2 }

/-- `StateMachineInstance::execute` (src/execution/mod.rs lines 85-101).  The
`get_state(..).unwrap()` of the initial state is modelled by a `match`; the
`none` branch (a panic in Rust, unreachable for a validated chart) returns
the instance unchanged. -/
def StateMachineInstance.execute {E D : Type} [DecidableEq E]
    (i : StateMachineInstance E D) : Except ErrorKind Unit × StateMachineInstance E D :=
  if i.is_done then (.error .InstanceIsDone, i)
  else if i.is_active then (.error .InstanceIsActive, i)
  else if i.state.is_in_action then (.error .EventDuringAction, i)
  else
    match i.chart.get_state i.chart.initial with
    | none => (.ok (), i)
    | some initial_state => (.ok (), (i.initial_entry initial_state).check_done)

/-- The event-processing block of `StateMachineInstance::post` (src/execution/
mod.rs lines 120-126): map every active state through `handle_transition` for
the posted event (threading the context in iteration order) and replace the
active configuration with the flattened, deduplicated target set.  An id the
chart cannot resolve (a panic in Rust) contributes nothing. -/
def StateMachineInstance.process_event {E D : Type} [DecidableEq E]
    (i : StateMachineInstance E D) (event : E) : StateMachineInstance E D :=
  let r :=
    i.active.foldl
      (fun acc id =>
        match i.chart.get_state id with
        | none => acc
        | some st =>
          let h := handle_transition i.chart st (some event) acc.2
          (acc.1 ++ h.1, h.2))
      ([], i.context)
  { i with active := r.1.eraseDups, context := r.2 }

/-- `StateMachineInstance::post` (src/execution/mod.rs lines 111-130). -/
def StateMachineInstance.post {E D : Type} [DecidableEq E]
    (i : StateMachineInstance E D) (event : E) :
    Except ErrorKind Unit × StateMachineInstance E D :=
  if i.is_done then (.error .InstanceIsDone, i)
  else if !i.is_active then (.error .InstanceIsNotActive, i)
  else if i.state.is_in_action then (.error .EventDuringAction, i)
  else (.ok (), (i.process_event event).check_done)

/-- One `execute` (for `none`) or `post` (for `some e`) call, discarding the
returned `Result`: the instance as the call leaves it. -/
def applyCall {E D : Type} [DecidableEq E] (i : StateMachineInstance E D) :
    Option E → StateMachineInstance E D
  | none => (i.execute).2
  | some e => (i.post e).2

/-- A sequence of `execute`/`post` calls applied in order. -/
def runCalls {E D : Type} [DecidableEq E] (i : StateMachineInstance E D) :
    List (Option E) → StateMachineInstance E D
  | [] => i
  | c :: cs => runCalls (applyCall i c) cs

/-! Spec-side definitions: the structural invariants of §3 of the
specification, stated from the spec's words for comparison with
`StateMachine.validate` (the code-side definition above). -/

/-- Spec invariant 1: every transition target, when present, names an
existing state. -/
def specInv1 {E D : Type} (m : StateMachine E D) : Prop :=
  ∀ p ∈ m.states, ∀ t ∈ p.2.transitions, ∀ tgt, t.target = some tgt → m.has_state tgt = true

/-- Spec invariant 2: the machine initial pointer names a state of kind
`Initial`. -/
def specInv2 {E D : Type} (m : StateMachine E D) : Prop :=
  ∃ st, m.get_state m.initial = some st ∧ st.kind = .Initial

/-- Spec invariant 3: at least one state of kind `Final` exists. -/
def specInv3 {E D : Type} (m : StateMachine E D) : Prop :=
  ∃ p ∈ m.states, p.2.kind = .Final

/-- Spec invariant 4: a `Composite` state's children are non-empty and its
nominated initial child exists with kind `Initial`. -/
def specInv4 {E D : Type} (m : StateMachine E D) : Prop :=
  ∀ p ∈ m.states, ∀ cs ini, p.2.kind = .Composite cs ini →
    (cs ≠ [] ∧ ∃ st, m.get_state ini = some st ∧ st.kind = .Initial)

/-- Spec invariant 5: an `Orthogonal` state's children are non-empty. -/
def specInv5 {E D : Type} (m : StateMachine E D) : Prop :=
  ∀ p ∈ m.states, ∀ cs, p.2.kind = .Orthogonal cs → cs ≠ []

/-- Spec invariant 6: `Final` states have no outgoing transitions. -/
def specInv6 {E D : Type} (m : StateMachine E D) : Prop :=
  ∀ p ∈ m.states, p.2.kind = .Final → p.2.transitions = []

/-- Spec invariant 7: every transition carries at least one of event, target
or guard. -/
def specInv7 {E D : Type} (m : StateMachine E D) : Prop :=
  ∀ p ∈ m.states, ∀ t ∈ p.2.transitions,
    (t.event ≠ none ∨ t.target ≠ none ∨ t.conditions ≠ [])

/-- The per-kind conditions `State::validate` enforces, as a proposition
(proof-structuring restatement of the kind block of `State.validate`). -/
def kindOK {E D : Type} (m : StateMachine E D) (s : State E D) : Prop :=
  match s.kind with
  | .Composite cs ini => cs ≠ [] ∧ ∃ st, m.get_state ini = some st ∧ st.kind = .Initial
  | .Orthogonal cs => cs ≠ []
  | .Final => s.transitions = []
  | _ => True

/-! Concrete machines used to evaluate the engine and the validator.  Events
and contexts are `Nat`; state ids are positive (`StateID.invalid = 0` stays
distinct, as the crate's `ID::invalid()` is). -/

/-- A transition with the given event and target and nothing else. -/
def trn (e : Option Nat) (tgt : Option StateID) : Transition Nat Nat :=
  { event := e, target := tgt }

/-- Scenario-3 machine of the spec: `init`(1) reaches `s1`(2) by a completion
transition; `s1` has two transitions on event `0`, both unguarded (an empty
guard conjunction holds), to the distinct final states 3 and 4. -/
def chartTwoEnabled : StateMachine Nat Nat :=
  { states :=
      [ (1, { id := 1, kind := .Initial, transitions := [trn none (some 2)] }),
        (2, { id := 2, transitions := [trn (some 0) (some 3), trn (some 0) (some 4)] }),
        (3, { id := 3, kind := .Final }),
        (4, { id := 4, kind := .Final }) ],
    initial := 1 }

/-- `chartTwoEnabled` executed once: active configuration `{2}`. -/
def instTwoEnabled : StateMachineInstance Nat Nat :=
  ((StateMachineInstance.new chartTwoEnabled 0).execute).2

/-- `init`(1) reaches `s1`(2); `s1` handles only event `5` (to the final
state 3).  Event `7` matches no transition of any active state. -/
def chartNoMatch : StateMachine Nat Nat :=
  { states :=
      [ (1, { id := 1, kind := .Initial, transitions := [trn none (some 2)] }),
        (2, { id := 2, transitions := [trn (some 5) (some 3)] }),
        (3, { id := 3, kind := .Final }) ],
    initial := 1 }

/-- `chartNoMatch` executed once: active configuration `{2}`. -/
def instNoMatch : StateMachineInstance Nat Nat :=
  ((StateMachineInstance.new chartNoMatch 0).execute).2

/-- `init`(1) reaches `s1`(2) by a completion transition; `s1` carries an
entry action that increments the context and its own completion transition
to the final state 3. -/
def chartEntryAction : StateMachine Nat Nat :=
  { states :=
      [ (1, { id := 1, kind := .Initial, transitions := [trn none (some 2)] }),
        (2, { id := 2, on_entry := [fun _ _ d => d + 1],
              transitions := [trn none (some 3)] }),
        (3, { id := 3, kind := .Final }) ],
    initial := 1 }

/-- `chartEntryAction` executed once: active configuration `{2}`. -/
def instEntryAction : StateMachineInstance Nat Nat :=
  ((StateMachineInstance.new chartEntryAction 0).execute).2

/-- Scenario-4 machine of the spec: `init`(1) reaches the orthogonal state
`p`(2) with children `b1`(3) and `b2`(4), which handle events `1`/`2` toward
the final states 5 and 6. -/
def chartOrthogonal : StateMachine Nat Nat :=
  { states :=
      [ (1, { id := 1, kind := .Initial, transitions := [trn none (some 2)] }),
        (2, { id := 2, kind := .Orthogonal [3, 4] }),
        (3, { id := 3, transitions := [trn (some 1) (some 5)] }),
        (4, { id := 4, transitions := [trn (some 2) (some 6)] }),
        (5, { id := 5, kind := .Final }),
        (6, { id := 6, kind := .Final }) ],
    initial := 1 }

/-- `chartOrthogonal` executed once: active configuration `{2}`. -/
def instOrthogonal : StateMachineInstance Nat Nat :=
  ((StateMachineInstance.new chartOrthogonal 0).execute).2

/-- `init`(1) reaches `s1`(2); `s1` has an internal, target-less transition
on event `1` whose action increments the context. -/
def chartSelfLoop : StateMachine Nat Nat :=
  { states :=
      [ (1, { id := 1, kind := .Initial, transitions := [trn none (some 2)] }),
        (2, { id := 2, transitions :=
              [{ event := some 1, target := none, internal := true,
                 actions := [fun _ _ d => d + 1] }] }),
        (3, { id := 3, kind := .Final }) ],
    initial := 1 }

/-- `chartSelfLoop` executed once: active configuration `{2}`. -/
def instSelfLoop : StateMachineInstance Nat Nat :=
  ((StateMachineInstance.new chartSelfLoop 0).execute).2

/-- An instance of `chartNoMatch` that has reached its final state. -/
def doneInst : StateMachineInstance Nat Nat :=
  { chart := chartNoMatch, active := [3], context := 0, state := .Done }

/-! Minimal counter-models for the validator, each violating exactly one of
the spec's invariants 1-7. -/

/-- Violates only invariant 1: a transition to the nonexistent state 9. -/
def cmBadTarget : StateMachine Nat Nat :=
  { states :=
      [ (1, { id := 1, kind := .Initial, transitions := [trn none (some 9)] }),
        (2, { id := 2, kind := .Final }) ],
    initial := 1 }

/-- Violates only invariant 2: the initial pointer names no state. -/
def cmBadInitialName : StateMachine Nat Nat :=
  { states := [ (1, { id := 1, kind := .Initial }), (2, { id := 2, kind := .Final }) ],
    initial := 7 }

/-- Violates only invariant 2: the initial pointer names the `Final` state. -/
def cmBadInitialKind : StateMachine Nat Nat :=
  { states := [ (1, { id := 1, kind := .Initial }), (2, { id := 2, kind := .Final }) ],
    initial := 2 }

/-- Violates only invariant 3: no `Final` state. -/
def cmNoFinal : StateMachine Nat Nat :=
  { states := [ (1, { id := 1, kind := .Initial }) ], initial := 1 }

/-- Violates only invariant 4: a `Composite` with no children. -/
def cmEmptyComposite : StateMachine Nat Nat :=
  { states := [ (1, { id := 1, kind := .Initial }), (2, { id := 2, kind := .Final }),
                (3, { id := 3, kind := .Composite [] 1 }) ],
    initial := 1 }

/-- Violates only invariant 4: a `Composite` whose nominated initial child is
the `Final` state 2. -/
def cmBadInitialChild : StateMachine Nat Nat :=
  { states := [ (1, { id := 1, kind := .Initial }), (2, { id := 2, kind := .Final }),
                (3, { id := 3, kind := .Composite [2] 2 }) ],
    initial := 1 }

/-- Violates only invariant 5: an `Orthogonal` with no children. -/
def cmEmptyOrthogonal : StateMachine Nat Nat :=
  { states := [ (1, { id := 1, kind := .Initial }), (2, { id := 2, kind := .Final }),
                (3, { id := 3, kind := .Orthogonal [] }) ],
    initial := 1 }

/-- Violates only invariant 6: a `Final` state with an outgoing transition. -/
def cmFinalOutbound : StateMachine Nat Nat :=
  { states := [ (1, { id := 1, kind := .Initial }),
                (2, { id := 2, kind := .Final, transitions := [trn (some 0) (some 1)] }) ],
    initial := 1 }

/-- Violates only invariant 7: a transition with no event, no target and no
guard. -/
def cmEmptyTransition : StateMachine Nat Nat :=
  { states := [ (1, { id := 1, kind := .Initial, transitions := [trn none none] }),
                (2, { id := 2, kind := .Final }) ],
    initial := 1 }

/-! Helper lemmas about the validator. -/

/-- The short-circuiting `collect` validates a list successfully exactly when
every element validates successfully. -/
theorem validateList_ok_iff {α : Type} (f : α → Except ErrorKind Unit) (l : List α) :
    validateList f l = .ok () ↔ ∀ x ∈ l, f x = .ok () := by
  induction l with
  | nil => simp [validateList]
  | cons x xs ih =>
    cases h : f x with
    | ok u =>
      cases u
      simp [validateList, h, ih]
    | error e => simp [validateList, h]

/-- `Transition::validate` succeeds exactly when the transition is non-empty
and a present target resolves. -/
theorem transition_validate_ok_iff {E D : Type} (t : Transition E D) (m : StateMachine E D) :
    t.validate m = .ok () ↔
      ((t.event ≠ none ∨ t.target ≠ none ∨ t.conditions ≠ []) ∧
        ∀ tgt, t.target = some tgt → m.has_state tgt = true) := by
  unfold Transition.validate
  cases he : t.event with
  | none =>
    cases ht : t.target with
    | none =>
      cases hc : t.conditions with
      | nil => simp
      | cons c cs => simp
    | some tgt => by_cases hh : m.has_state tgt <;> simp [hh]
  | some e =>
    cases ht : t.target with
    | none => simp
    | some tgt => by_cases hh : m.has_state tgt <;> simp [hh]

/-- `State::validate` succeeds exactly when its kind block passes and every
transition validates. -/
theorem state_validate_ok_iff {E D : Type} (s : State E D) (m : StateMachine E D) :
    s.validate m = .ok () ↔ (kindOK m s ∧ ∀ t ∈ s.transitions, t.validate m = .ok ()) := by
  unfold State.validate kindOK
  cases hk : s.kind with
  | Atomic => simp [validateList_ok_iff]
  | Composite cs ini =>
    cases hcs : cs with
    | nil => simp
    | cons a as =>
      cases hg : m.get_state ini with
      | none => simp [hg]
      | some st =>
        by_cases hki : st.kind = .Initial
        · simp [hg, hki, validateList_ok_iff]
        · simp [hg, hki]
  | Orthogonal cs => cases hcs : cs <;> simp [validateList_ok_iff]
  | History d sts => simp [validateList_ok_iff]
  | Initial => simp [validateList_ok_iff]
  | Final =>
    cases htr : s.transitions with
    | nil => simp [validateList]
    | cons a as => simp

/-- The kind block of `State::validate`, phrased per kind. -/
theorem kindOK_iff {E D : Type} (m : StateMachine E D) (s : State E D) :
    kindOK m s ↔
      ((∀ cs ini, s.kind = .Composite cs ini →
          (cs ≠ [] ∧ ∃ st, m.get_state ini = some st ∧ st.kind = .Initial)) ∧
        (∀ cs, s.kind = .Orthogonal cs → cs ≠ []) ∧
        (s.kind = .Final → s.transitions = [])) := by
  unfold kindOK
  cases hk : s.kind <;> simp

/-- The `final_count` fold counts the `Final` states. -/
theorem finalCount_foldl {E D : Type} (l : List (StateID × State E D)) (c : Nat) :
    l.foldl (fun count p => if p.2.kind = .Final then count + 1 else count) c
      = c + l.countP (fun p => p.2.kind == .Final) := by
  induction l generalizing c with
  | nil => simp
  | cons x xs ih =>
    by_cases h : x.2.kind = .Final
    · simp only [List.foldl_cons, if_pos h, ih, List.countP_cons]
      simp [h]
      omega
    · simp only [List.foldl_cons, if_neg h, ih, List.countP_cons]
      simp [h]

/-- `StateMachine::validate` succeeds exactly when the initial pointer
resolves to an `Initial` state, some `Final` state exists, and every state
validates.  (A non-empty state set follows from the `Final` state.) -/
theorem machine_validate_ok_iff {E D : Type} (m : StateMachine E D) :
    m.validate = .ok () ↔
      ((∃ st, m.get_state m.initial = some st ∧ st.kind = .Initial) ∧
        (∃ p ∈ m.states, p.2.kind = .Final) ∧
        ∀ p ∈ m.states, p.2.validate m = .ok ()) := by
  unfold StateMachine.validate
  cases hs : m.states with
  | nil => simp [hs]
  | cons q qs =>
    cases hg : m.get_state m.initial with
    | none => simp [hg]
    | some st =>
      by_cases hk : st.kind = .Initial
      · rw [finalCount_foldl]
        have hred :
            (if List.isEmpty (q :: qs) = true then
                (Except.error ErrorKind.ChartStatesEmpty : Except ErrorKind Unit)
              else
                if st.kind ≠ .Initial then .error .ChartInvalidInitialStateKind
                else
                  if 0 + List.countP (fun p => p.2.kind == .Final) (q :: qs) = 0 then
                    .error .ChartNoFinalState
                  else validateList (fun p => p.2.validate m) (q :: qs))
              = (if 0 + List.countP (fun p => p.2.kind == .Final) (q :: qs) = 0 then
                  .error .ChartNoFinalState
                else validateList (fun p => p.2.validate m) (q :: qs)) := by
          simp [hk]
        rw [hred]
        by_cases hfc : (List.countP (fun p => p.2.kind == .Final) (q :: qs)) = 0
        · have hnofin : ¬ ∃ p ∈ q :: qs, p.2.kind = .Final := by
            rw [List.countP_eq_zero] at hfc
            rintro ⟨p, hp, hfin⟩
            exact absurd (by simp [hfin]) (hfc p hp)
          apply iff_of_false
          · rw [if_pos (by simpa using hfc)]
            simp
          · rintro ⟨-, hfin, -⟩
            exact hnofin hfin
        · have hfin : ∃ p ∈ q :: qs, p.2.kind = .Final := by
            rcases List.countP_pos_iff.1 (Nat.pos_of_ne_zero hfc) with ⟨p, hp, hf⟩
            exact ⟨p, hp, by simpa using hf⟩
          rw [if_neg (by simpa using hfc), validateList_ok_iff]
          constructor
          · intro hall
            exact ⟨⟨st, rfl, hk⟩, hfin, hall⟩
          · rintro ⟨-, -, hall⟩
            exact hall
      · simp [hg, hk]

/-- The validator succeeds exactly on the machines satisfying the spec's
invariants 1-7. -/
theorem validate_ok_iff_specInvs {E D : Type} (m : StateMachine E D) :
    m.validate = .ok () ↔
      (specInv1 m ∧ specInv2 m ∧ specInv3 m ∧ specInv4 m ∧ specInv5 m ∧
        specInv6 m ∧ specInv7 m) := by
  rw [machine_validate_ok_iff]
  unfold specInv1 specInv2 specInv3 specInv4 specInv5 specInv6 specInv7
  constructor
  · rintro ⟨h2, h3, hall⟩
    refine ⟨?_, h2, h3, ?_, ?_, ?_, ?_⟩
    · intro p hp t ht tgt htgt
      have hst := (state_validate_ok_iff _ _).1 (hall p hp)
      exact ((transition_validate_ok_iff t m).1 (hst.2 t ht)).2 tgt htgt
    · intro p hp cs ini hk
      exact ((kindOK_iff m p.2).1 ((state_validate_ok_iff _ _).1 (hall p hp)).1).1 cs ini hk
    · intro p hp cs hk
      exact ((kindOK_iff m p.2).1 ((state_validate_ok_iff _ _).1 (hall p hp)).1).2.1 cs hk
    · intro p hp hk
      exact ((kindOK_iff m p.2).1 ((state_validate_ok_iff _ _).1 (hall p hp)).1).2.2 hk
    · intro p hp t ht
      have hst := (state_validate_ok_iff _ _).1 (hall p hp)
      exact ((transition_validate_ok_iff t m).1 (hst.2 t ht)).1
  · rintro ⟨h1, h2, h3, h4, h5, h6, h7⟩
    refine ⟨h2, h3, ?_⟩
    intro p hp
    rw [state_validate_ok_iff]
    refine ⟨(kindOK_iff m p.2).2
        ⟨fun cs ini hk => h4 p hp cs ini hk,
          fun cs hk => h5 p hp cs hk,
          fun hk => h6 p hp hk⟩, ?_⟩
    intro t ht
    rw [transition_validate_ok_iff]
    exact ⟨h7 p hp t ht, fun tgt htgt => h1 p hp t ht tgt htgt⟩

/-! Helper lemmas about the execution engine. -/

/-- The completion condition tested by `check_done`, as a proposition. -/
theorem check_done_cond_iff {E D : Type} (j : StateMachineInstance E D) :
    (!j.active.isEmpty && j.active.all (fun id => j.chart.state_kind id == .Final)) = true
      ↔ (j.active ≠ [] ∧ ∀ id ∈ j.active, j.chart.state_kind id = .Final) := by
  simp [List.all_eq_true, List.isEmpty_iff]

/-- `check_done` sets the lifecycle to `Done` or to `Active`, never anything
else. -/
theorem check_done_state_cases {E D : Type} (j : StateMachineInstance E D) :
    j.check_done.state = .Done ∨ j.check_done.state = .Active := by
  unfold StateMachineInstance.check_done
  split
  · exact Or.inl rfl
  · exact Or.inr rfl

/-- `execute` never moves an instance into the `Error` lifecycle value. -/
theorem execute_state_ne_error {E D : Type} [DecidableEq E]
    (i : StateMachineInstance E D) (h : i.state ≠ .Error) :
    (i.execute).2.state ≠ .Error := by
  unfold StateMachineInstance.execute
  split_ifs
  · exact h
  · exact h
  · exact h
  · cases hg : i.chart.get_state i.chart.initial with
    | none => exact h
    | some st =>
      rcases check_done_state_cases (i.initial_entry st) with hc | hc <;> simp [hc]

/-- `post` never moves an instance into the `Error` lifecycle value. -/
theorem post_state_ne_error {E D : Type} [DecidableEq E]
    (i : StateMachineInstance E D) (e : E) (h : i.state ≠ .Error) :
    (i.post e).2.state ≠ .Error := by
  unfold StateMachineInstance.post
  split_ifs
  · exact h
  · exact h
  · exact h
  · rcases check_done_state_cases (i.process_event e) with hc | hc <;> simp [hc]

/-- One `execute`/`post` call never moves an instance into `Error`. -/
theorem applyCall_state_ne_error {E D : Type} [DecidableEq E]
    (i : StateMachineInstance E D) (c : Option E) (h : i.state ≠ .Error) :
    (applyCall i c).state ≠ .Error := by
  cases c with
  | none => exact execute_state_ne_error i h
  | some e => exact post_state_ne_error i e h

/-! The claim theorems. -/

/-- C1: the claim says that two transitions of one active state enabled for
the same posted event make `post` return the transition-conflict error and
leave the active configuration untouched.  On the scenario-3 machine the
engine instead accepts the event, fires both enabled transitions, replaces
the source with both targets and completes: no conflict is detected
anywhere in `handle_transition`/`fire_state_transitions`. -/
theorem c1_enabled_conflict_not_reported :
    chartTwoEnabled.validate = .ok () ∧
    instTwoEnabled.active = [2] ∧ instTwoEnabled.state = .Active ∧
    (instTwoEnabled.post 0).1 = .ok () ∧
    (instTwoEnabled.post 0).2.active = [3, 4] ∧
    (instTwoEnabled.post 0).2.state = .Done :=
  ⟨rfl, rfl, rfl, rfl, rfl, rfl⟩

/-- C2: the claim says an event enabled for no active state leaves the
active configuration unchanged.  `post` does return `Ok` and the lifecycle
stays `Active`, but the rebuild of the active set from the fired targets
drops the state 2, which contributed no target: the configuration is
emptied, not preserved. -/
theorem c2_unmatched_event_empties_active :
    chartNoMatch.validate = .ok () ∧
    instNoMatch.active = [2] ∧ instNoMatch.state = .Active ∧
    (instNoMatch.post 7).1 = .ok () ∧
    (instNoMatch.post 7).2.active = [] ∧
    (instNoMatch.post 7).2.state = .Active :=
  ⟨rfl, rfl, rfl, rfl, rfl, rfl⟩

/-- C3: the claim says every newly active state gets the entry sequence
(entry actions, body actions, completion resolution).  On `chartEntryAction`
the state 2 becomes active as the target of the initial completion
transition, yet its entry action never runs (the context stays 0) and its
own completion transition to the final state 3 is never resolved (the
configuration stays `{2}` and the instance stays `Active`): `enter_state`
is invoked only on the machine's initial state inside `execute`. -/
theorem c3_transition_target_not_entered :
    chartEntryAction.validate = .ok () ∧
    ((StateMachineInstance.new chartEntryAction 0).execute).1 = .ok () ∧
    instEntryAction.active = [2] ∧
    instEntryAction.context = 0 ∧
    instEntryAction.state = .Active :=
  ⟨rfl, rfl, rfl, rfl, rfl⟩

/-- C4: the claim says entering an `Orthogonal` state enters every child
branch, so scenario 4 ends `execute()` with active = `{3, 4}` (= `{b1, b2}`).
The engine performs no child recursion at all: the orthogonal state 2 itself
is the sole member of the active configuration. -/
theorem c4_orthogonal_children_not_entered :
    chartOrthogonal.validate = .ok () ∧
    instOrthogonal.active = [2] ∧
    instOrthogonal.state = .Active :=
  ⟨rfl, rfl, rfl⟩

/-- C5: the claim says an aborting callback is caught, the lifecycle becomes
`Error` and `ActionPanicked` is surfaced.  `run_actions` invokes every
callback with no handler around it, and no reachable code path constructs
either the `ActionPanicked` error or the `Error` lifecycle value: whatever
an `execute`/`post` call returns, its result is never `ActionPanicked` and
its instance is never in `Error`. -/
theorem c5_engine_cannot_surface_action_abort {E D : Type} [DecidableEq E]
    (i : StateMachineInstance E D) (e : E) (h : i.state ≠ .Error) :
    (i.execute).1 ≠ .error .ActionPanicked ∧ (i.execute).2.state ≠ .Error ∧
      (i.post e).1 ≠ .error .ActionPanicked ∧ (i.post e).2.state ≠ .Error := by
  refine ⟨?_, execute_state_ne_error i h, ?_, post_state_ne_error i e h⟩
  · unfold StateMachineInstance.execute
    split_ifs
    · simp
    · simp
    · simp
    · cases i.chart.get_state i.chart.initial <;> simp
  · unfold StateMachineInstance.post
    split_ifs <;> simp

/-- C5, instantiated: a fresh instance of `chartNoMatch`. -/
theorem c5_engine_cannot_surface_action_abort_witness :
    (StateMachineInstance.new chartNoMatch (0 : Nat)).state ≠ .Error ∧
      (((StateMachineInstance.new chartNoMatch (0 : Nat)).execute).1
          ≠ .error .ActionPanicked ∧
        ((StateMachineInstance.new chartNoMatch (0 : Nat)).execute).2.state ≠ .Error ∧
        ((StateMachineInstance.new chartNoMatch (0 : Nat)).post 7).1
          ≠ .error .ActionPanicked ∧
        ((StateMachineInstance.new chartNoMatch (0 : Nat)).post 7).2.state ≠ .Error) :=
  ⟨by decide,
    c5_engine_cannot_surface_action_abort (StateMachineInstance.new chartNoMatch 0) 7
      (by decide)⟩

/-- C6: `validate` succeeds exactly on the machines satisfying invariants
1-7 of §3 of the specification, and on a minimal counter-model violating a
single invariant it short-circuits with exactly the corresponding error
kind. -/
theorem c6_validate_ok_iff_spec_invariants :
    (∀ (E D : Type) (m : StateMachine E D),
        m.validate = .ok () ↔
          (specInv1 m ∧ specInv2 m ∧ specInv3 m ∧ specInv4 m ∧ specInv5 m ∧
            specInv6 m ∧ specInv7 m)) ∧
    cmBadTarget.validate = .error .TransitionTargetState ∧
    cmBadInitialName.validate = .error .ChartInvalidInitialStateName ∧
    cmBadInitialKind.validate = .error .ChartInvalidInitialStateKind ∧
    cmNoFinal.validate = .error .ChartNoFinalState ∧
    cmEmptyComposite.validate = .error .StateChildStatesEmpty ∧
    cmBadInitialChild.validate = .error .StateInitialState ∧
    cmEmptyOrthogonal.validate = .error .StateChildStatesEmpty ∧
    cmFinalOutbound.validate = .error .FinalStateTransitions ∧
    cmEmptyTransition.validate = .error .TransitionTrigger :=
  ⟨fun _ _ m => validate_ok_iff_specInvs m,
    rfl, rfl, rfl, rfl, rfl, rfl, rfl, rfl, rfl⟩

/-- C7: every successful `post` ends with `check_done` applied to the
processed instance, every successful `execute` ends with `check_done`
applied to the initial entry, and `check_done` runs the machine done-action
list (tag `Done`) and sets the lifecycle to `Done` exactly when the active
configuration is non-empty with every member of kind `Final`, setting it to
`Active` otherwise. -/
theorem c7_completion_check_after_processing {E D : Type} [DecidableEq E]
    (i : StateMachineInstance E D) (e : E) :
    ((i.post e).1 = .ok () → (i.post e).2 = (i.process_event e).check_done) ∧
    ((i.execute).1 = .ok () →
      ∀ st, i.chart.get_state i.chart.initial = some st →
        (i.execute).2 = (i.initial_entry st).check_done) ∧
    (∀ j : StateMachineInstance E D,
      ((j.active ≠ [] ∧ ∀ id ∈ j.active, j.chart.state_kind id = .Final) →
        j.check_done.state = .Done ∧
        j.check_done.active = j.active ∧
        j.check_done.context
          = run_actions StateID.invalid .Done j.chart.on_done j.context) ∧
      (¬(j.active ≠ [] ∧ ∀ id ∈ j.active, j.chart.state_kind id = .Final) →
        j.check_done = { j with state := .Active })) := by
  refine ⟨?_, ?_, ?_⟩
  · unfold StateMachineInstance.post
    split_ifs
    · intro h; exact absurd h (by simp)
    · intro h; exact absurd h (by simp)
    · intro h; exact absurd h (by simp)
    · intro _; rfl
  · unfold StateMachineInstance.execute
    split_ifs
    · intro h; exact absurd h (by simp)
    · intro h; exact absurd h (by simp)
    · intro h; exact absurd h (by simp)
    · cases hg : i.chart.get_state i.chart.initial with
      | none => intro _ st hst; exact absurd hst (by simp)
      | some st0 =>
        intro _ st hst
        obtain rfl : st0 = st := by injection hst
        rfl
  · intro j
    constructor
    · intro hP
      have hcond := (check_done_cond_iff j).2 hP
      unfold StateMachineInstance.check_done
      rw [if_pos hcond]
      exact ⟨rfl, rfl, rfl⟩
    · intro hP
      have hcond : ¬((!j.active.isEmpty
          && j.active.all (fun id => j.chart.state_kind id == .Final)) = true) :=
        fun hc => hP ((check_done_cond_iff j).1 hc)
      unfold StateMachineInstance.check_done
      rw [if_neg hcond]

/-- C8: an instance whose lifecycle is `Done` refuses every further
`execute` and `post` call with `InstanceIsDone` and is returned unchanged
(active configuration, context and lifecycle included). -/
theorem c8_done_refuses_calls {E D : Type} [DecidableEq E]
    (i : StateMachineInstance E D) (h : i.is_done = true) :
    i.execute = (.error .InstanceIsDone, i) ∧
      ∀ e : E, i.post e = (.error .InstanceIsDone, i) := by
  constructor
  · unfold StateMachineInstance.execute
    rw [if_pos h]
  · intro e
    unfold StateMachineInstance.post
    rw [if_pos h]

/-- C8, instantiated: a finished instance of `chartNoMatch`. -/
theorem c8_done_refuses_calls_witness :
    doneInst.is_done = true ∧
      (doneInst.execute = (.error .InstanceIsDone, doneInst) ∧
        ∀ e : Nat, doneInst.post e = (.error .InstanceIsDone, doneInst)) :=
  ⟨rfl, c8_done_refuses_calls doneInst rfl⟩

/-- C9: the claim says a fired transition with no target is an internal
self-loop, leaving its source active.  On `chartSelfLoop` the transition's
action does run (the context becomes 1), but the `filter_map` over the fired
targets contributes nothing for a `none` target, so the source state 2 is
removed and the active configuration is emptied. -/
theorem c9_targetless_transition_removes_source :
    chartSelfLoop.validate = .ok () ∧
    instSelfLoop.active = [2] ∧
    (instSelfLoop.post 1).1 = .ok () ∧
    (instSelfLoop.post 1).2.context = 1 ∧
    (instSelfLoop.post 1).2.active = [] :=
  ⟨rfl, rfl, rfl, rfl, rfl⟩

/-- C10: starting from a fresh instance, no sequence of `execute`/`post`
calls (with the total, non-aborting callbacks of this model) can make
`is_in_error` true: no engine operation ever assigns the `Error` lifecycle
value. -/
theorem c10_error_state_unreachable {E D : Type} [DecidableEq E]
    (m : StateMachine E D) (d : D) (calls : List (Option E)) :
    (runCalls (StateMachineInstance.new m d) calls).is_in_error = false := by
  have key : ∀ (cs : List (Option E)) (i : StateMachineInstance E D),
      i.state ≠ .Error → (runCalls i cs).state ≠ .Error := by
    intro cs
    induction cs with
    | nil => intro i h; exact h
    | cons c cs ih =>
      intro i h
      exact ih _ (applyCall_state_ne_error i c h)
  have h := key calls (StateMachineInstance.new m d) (by simp [StateMachineInstance.new])
  unfold StateMachineInstance.is_in_error
  cases hs : (runCalls (StateMachineInstance.new m d) calls).state <;>
    simp_all [ExecutionState.is_in_error]

end USM
